import Mathlib

/-!
Shallow embedding of `Ractive-decorators-sortable.js` (version 0.2.1).

The plugin keeps five module-level mutable variables (`ractive`,
`sourceKeypath`, `sourceArray`, `eventNameToFire`, `nodeMapping`) and installs
four native drag-event handlers per decorated element.  We model the DOM
surface and the Ractive host explicitly: a `World` carries every node's
mutable state (dataset entry, class list, listeners), the per-instance data
stores, the `Ractive.getContext` resolution, and the plugin's module state.
Each handler is a pure function from a `World` and the event's `this` node to
a new `World`, a trace of observable effects, and an optional thrown error.
-/

namespace Sortable

/-- Identity of a DOM node. -/
abbrev NodeId := Nat

/-- A Ractive keypath of an array member, kept in structured form: the parent
keypath (the array's keypath, what `context.resolve(..)` with the up-one
path yields) plus the numeric final segment.  `Ractive.splitKeypath` on such
a keypath ends in the decimal rendering of `index`. -/
structure Keypath where
  parent : String
  index : Nat
deriving DecidableEq, Repr

/-- Models `array[array.length - 1]` after `array = Ractive.splitKeypath(kp)`,
coerced to the number the host's `splice` receives: the final segment of an
array member's keypath is its index. -/
def Keypath.lastSegment (k : Keypath) : Nat := k.index

/-- What `Ractive.getContext(node)` resolves for a node: the identity of the
owning Ractive instance (`context.ractive`) and the node's keypath
(`context.resolve()`; `context.resolve` of the up-one path is `keypath.parent`). -/
structure Context where
  ractiveId : Nat
  keypath : Keypath
deriving DecidableEq, Repr

/-- A value held in a Ractive instance's data at some keypath: an array, or
anything that is not an array (`Array.isArray` false). -/
inductive DataVal (α : Type)
  | arr (xs : List α)
  | other
deriving DecidableEq, Repr

/-- Models `Array.isArray`. -/
def DataVal.isArray {α : Type} : DataVal α → Bool
  | .arr _ => true
  | .other => false

/-- The four module functions the plugin registers as listeners. -/
inductive Handler
  | dragstartH
  | dragenterH
  | removeTargetClassH
  | preventDefaultH
deriving DecidableEq, Repr

/-- Mutable per-node DOM state touched by the plugin: `dataset.targetClass`
(absent until the decorator sets it), the class list, the `draggable` flag,
and the registered (event type, listener) pairs. -/
structure NodeState where
  targetClass : Option String
  classes : List String
  draggable : Bool
  listeners : List (String × Handler)
deriving DecidableEq, Repr

/-- One entry of the module-level `nodeMapping` array.  `draggableNode` is an
`Option` because `node.querySelector(selector)` can return null and the entry
is pushed before that value is dereferenced. -/
structure Mapping where
  nodeToMove : NodeId
  draggableNode : Option NodeId
deriving DecidableEq, Repr

/-- The module-level mutable variables of the plugin.  All start as JS
`undefined` (`none`) resp. the empty `nodeMapping` array. -/
structure ModuleState where
  ractiveId : Option Nat
  sourceKeypath : Option Keypath
  sourceArray : Option String
  eventNameToFire : Option String
  nodeMapping : List Mapping
deriving DecidableEq, Repr

/-- The whole mutable state the handlers can observe: per-node DOM state, the
host's context resolution, each Ractive instance's data (keypath to value),
the DOM's `querySelector`, and the plugin module state.  Contexts, data
layout (apart from the spliced arrays) and query results are owned by the
host and the DOM; they are carried as read-only functions. -/
structure World (α : Type) where
  nodes : NodeId → NodeState
  contexts : NodeId → Context
  store : Nat → String → DataVal α
  query : NodeId → String → Option NodeId
  module : ModuleState

/-- Observable effects a handler performs against the event object, the DOM
class lists, the host's arrays and the host's event bus, in program order. -/
inductive Effect (α : Type)
  | setData
  | stopProp
  | prevDefault
  | setDropEffectMove
  | classAdd (node : NodeId) (cls : String)
  | classRemove (node : NodeId) (cls : String)
  | spliceRemove (rid : Nat) (arrRef : String) (idx : Nat)
  | spliceInsert (rid : Nat) (arrRef : String) (idx : Nat) (v : α)
  | fireEvent (name : String) (ctx : Context) (newPos : Keypath)
deriving DecidableEq, Repr

/-- An error escaping a handler: a TypeError from dereferencing `undefined`,
or an explicitly thrown `Error(msg)`. -/
inductive JsError
  | typeError
  | jsError (msg : String)
deriving DecidableEq, Repr

/-- Result of running one handler (or dispatching one event): the new world,
the effect trace, and the error that propagated out, if any. -/
structure HResult (α : Type) where
  world : World α
  effects : List (Effect α)
  err : Option JsError

/-- JS `array.splice(i, 1)`: remove one element at `i` (start clamped to the
length, so an out-of-range start removes nothing). -/
def jsSpliceRemove {α : Type} (xs : List α) (i : Nat) : List α :=
  xs.take i ++ xs.drop (i + 1)

/-- JS `array.splice(i, 0, v)`: insert `v` before index `i` (start clamped to
the length, so an out-of-range start appends). -/
def jsSpliceInsert {α : Type} (xs : List α) (i : Nat) (v : α) : List α :=
  xs.take i ++ v :: xs.drop i

/-- `classList.add`: appends the token unless already present. -/
def jsClassAdd (cs : List String) (c : String) : List String :=
  if c ∈ cs then cs else cs ++ [c]

/-- `classList.remove`: removes every occurrence of the token. -/
def jsClassRemove (cs : List String) (c : String) : List String :=
  cs.filter (fun x => x ≠ c)

/-- `addEventListener`: the DOM ignores a re-registration of the same
(type, listener) pair. -/
def addListener (l : List (String × Handler)) (t : String) (h : Handler) :
    List (String × Handler) :=
  if (t, h) ∈ l then l else l ++ [(t, h)]

/-- `removeEventListener`: drops the (type, listener) pair. -/
def removeListener (l : List (String × Handler)) (t : String) (h : Handler) :
    List (String × Handler) :=
  l.filter (fun p => p ≠ (t, h))

/-- `ractive.splice(ref, i, 1)` against instance `rid`: removes one element of
the array at keypath `ref`.  A non-array value is left unchanged (the reorder
branch only runs after drag-start has verified the value is an array). -/
def spliceRemoveStore {α : Type} (store : Nat → String → DataVal α) (rid : Nat)
    (ref : String) (i : Nat) : Nat → String → DataVal α :=
  fun r s =>
    if r = rid ∧ s = ref then
      match store r s with
      | .arr xs => .arr (jsSpliceRemove xs i)
      | v => v
    else store r s

/-- `ractive.splice(ref, i, 0, v)` against instance `rid`. -/
def spliceInsertStore {α : Type} (store : Nat → String → DataVal α) (rid : Nat)
    (ref : String) (i : Nat) (v : α) : Nat → String → DataVal α :=
  fun r s =>
    if r = rid ∧ s = ref then
      match store r s with
      | .arr xs => .arr (jsSpliceInsert xs i v)
      | w => w
    else store r s

/-- `ractive.get(keypath)` for an array-member keypath: the element at the
final-segment index of the array at the parent keypath.  A missing element
(JS `undefined`) is modelled by the `Inhabited` default. -/
def ractiveGet {α : Type} [Inhabited α] (store : Nat → String → DataVal α)
    (rid : Nat) (k : Keypath) : α :=
  match store rid k.parent with
  | .arr xs => xs.getD k.index default
  | .other => default

/-- The module's `getNodeToMove`: first `nodeMapping` entry whose
`draggableNode` is this node, then its `nodeToMove`.  `none` models the
TypeError site (`.find(..)` returned `undefined`). -/
def getNodeToMove (m : List Mapping) (draggableNode : NodeId) : Option NodeId :=
  (m.find? (fun item => item.draggableNode == some draggableNode)).map Mapping.nodeToMove

/-- The module's `errorMessage`. -/
def errorMessage : String :=
  "The sortable decorator only works with elements that correspond to array members"

/-- The `dragstartHandler` module function.  Resolves the movable node, sets
`sourceKeypath` and `sourceArray`, throws when the parent value is not an
array (the two assignments have already happened at the throw site), else
records the owning instance, marks the drag payload and stops propagation. -/
def dragstartHandler {α : Type} (w : World α) (thisNode : NodeId) : HResult α :=
  match getNodeToMove w.module.nodeMapping thisNode with
  | none => ⟨w, [], some .typeError⟩
  | some me =>
    let context := w.contexts me
    let skp := context.keypath
    let sarr := context.keypath.parent
    let m1 := { w.module with sourceKeypath := some skp, sourceArray := some sarr }
    if (w.store context.ractiveId sarr).isArray = false then
      ⟨{ w with module := m1 }, [], some (.jsError errorMessage)⟩
    else
      ⟨{ w with module := { m1 with ractiveId := some context.ractiveId } },
        [.setData, .stopProp], none⟩

/-- The `dragenterHandler` module function, in source order: resolve the
movable node, `preventDefault`, resolve its context; abort on a foreign
owner, abort on a foreign array, highlight-and-abort on the same keypath;
otherwise read the source value, splice it out at the old source index,
advance `sourceKeypath` to the target keypath, splice the value back in at
the new index, and fire the configured event if any.  In the reorder branch
the owner guard has ensured the module's `ractive` is this context's
instance, so the splices and the read are issued against it. -/
def dragenterHandler {α : Type} [Inhabited α] (w : World α) (thisNode : NodeId) :
    HResult α :=
  match getNodeToMove w.module.nodeMapping thisNode with
  | none => ⟨w, [], some .typeError⟩
  | some me =>
    let m := w.module
    let context := w.contexts me
    if some context.ractiveId ≠ m.ractiveId then ⟨w, [.prevDefault], none⟩
    else
      let targetKeypath := context.keypath
      let targetArray := context.keypath.parent
      if some targetArray ≠ m.sourceArray then ⟨w, [.prevDefault], none⟩
      else if some targetKeypath = m.sourceKeypath then
        let n := w.nodes me
        let cls := n.targetClass.getD "undefined"
        ⟨{ w with nodes := fun i =>
             if i = me then { n with classes := jsClassAdd n.classes cls } else w.nodes i },
          [.prevDefault, .classAdd me cls], none⟩
      else
        match m.sourceKeypath with
        | none => ⟨w, [.prevDefault, .setDropEffectMove], some .typeError⟩
        | some skp =>
          let rid := context.ractiveId
          let source := ractiveGet w.store rid skp
          let store1 := spliceRemoveStore w.store rid targetArray skp.lastSegment
          let m2 := { m with sourceKeypath := some targetKeypath }
          let store2 := spliceInsertStore store1 rid targetArray targetKeypath.lastSegment source
          let fires : List (Effect α) :=
            match m.eventNameToFire with
            | some name => [.fireEvent name context targetKeypath]
            | none => []
          ⟨{ w with store := store2, module := m2 },
            [.prevDefault, .setDropEffectMove,
             .spliceRemove rid targetArray skp.lastSegment,
             .spliceInsert rid targetArray targetKeypath.lastSegment source] ++ fires,
            none⟩

/-- The `removeTargetClass` module function (listener for drag-end and drop):
resolve the movable node, remove its recorded target class from its class
list, stop propagation.  It never touches the module state. -/
def removeTargetClass {α : Type} (w : World α) (thisNode : NodeId) : HResult α :=
  match getNodeToMove w.module.nodeMapping thisNode with
  | none => ⟨w, [], some .typeError⟩
  | some node =>
    let n := w.nodes node
    let cls := n.targetClass.getD "undefined"
    ⟨{ w with nodes := fun i =>
         if i = node then { n with classes := jsClassRemove n.classes cls } else w.nodes i },
      [.classRemove node cls, .stopProp], none⟩

/-- The `preventDefault` module function (listener for drag-over). -/
def preventDefault {α : Type} (w : World α) (_thisNode : NodeId) : HResult α :=
  ⟨w, [.stopProp, .prevDefault], none⟩

/-- Runs one registered handler. -/
def runHandler {α : Type} [Inhabited α] (h : Handler) (w : World α)
    (thisNode : NodeId) : HResult α :=
  match h with
  | .dragstartH => dragstartHandler w thisNode
  | .dragenterH => dragenterHandler w thisNode
  | .removeTargetClassH => removeTargetClass w thisNode
  | .preventDefaultH => preventDefault w thisNode

/-- Native event dispatch on a node: runs the listeners registered for the
event type, in registration order, threading the world and concatenating the
effect traces; the first propagated error is reported. -/
def dispatch {α : Type} [Inhabited α] (w : World α) (node : NodeId)
    (evType : String) : HResult α :=
  (((w.nodes node).listeners.filter (fun p => p.1 = evType)).map Prod.snd).foldl
    (fun acc h =>
      let r := runHandler h acc.world node
      ⟨r.world, acc.effects ++ r.effects, acc.err <|> r.err⟩)
    ⟨w, [], none⟩

/-- Result of one `sortable(node, ...)` decorator call: the new world, the
`node` variable captured by the returned teardown closure (the draggable
node), and the error, if the handle selector matched nothing. -/
structure AttachResult (α : Type) where
  world : World α
  teardownNode : Option NodeId
  err : Option JsError

/-- The `sortable` decorator function.  Chooses the movable and the draggable
node, pushes the `nodeMapping` entry, records the target class on the movable
node's dataset (`targetClass || 'droptarget'`), overwrites the module-level
`eventNameToFire`, then marks the draggable node draggable and registers the
five listeners.  When a selector is given and matches nothing, the entry,
the dataset write and the `eventNameToFire` write have already happened when
`node.draggable = true` throws on null. -/
def sortable {α : Type} (w : World α) (node : NodeId)
    (draggableElSelector : Option String) (targetClass : Option String)
    (eventNameToFire : Option String) : AttachResult α :=
  let nodeToMove := node
  let draggableNode : Option NodeId :=
    match draggableElSelector with
    | some sel => w.query node sel
    | none => some node
  let m1 := { w.module with
      nodeMapping := w.module.nodeMapping ++ [⟨nodeToMove, draggableNode⟩],
      eventNameToFire := eventNameToFire }
  let tc :=
    match targetClass with
    | some s => if s = "" then "droptarget" else s
    | none => "droptarget"
  let w1 := { w with
      module := m1,
      nodes := fun i =>
        if i = nodeToMove then { w.nodes i with targetClass := some tc }
        else w.nodes i }
  match draggableNode with
  | none => ⟨w1, none, some .typeError⟩
  | some dn =>
    ⟨{ w1 with nodes := fun i =>
         if i = dn then
           { w1.nodes i with
             draggable := true,
             listeners :=
               addListener (addListener (addListener (addListener (addListener
                 (w1.nodes i).listeners
                 "dragstart" .dragstartH) "dragend" .removeTargetClassH)
                 "dragenter" .dragenterH) "dragover" .preventDefaultH)
                 "drop" .removeTargetClassH }
         else w1.nodes i },
      some dn, none⟩

/-- The teardown closure returned by `sortable`, applied to its captured
draggable node: deregisters the five listeners.  The `nodeMapping` entry and
the dataset entry are left in place. -/
def teardown {α : Type} (w : World α) (node : NodeId) : World α :=
  { w with nodes := fun i =>
      if i = node then
        { w.nodes i with
          listeners :=
            removeListener (removeListener (removeListener (removeListener (removeListener
              (w.nodes i).listeners
              "dragstart" .dragstartH) "dragend" .removeTargetClassH)
              "dragenter" .dragenterH) "dragover" .preventDefaultH)
              "drop" .removeTargetClassH }
      else w.nodes i }

/-! ## Concrete scenario worlds

A page with one Ractive instance (id 0) rendering one array at keypath
`"list"`; node `i` is the element rendered for the member at index `i`. -/

/-- The keypath of the scenario's backing array. -/
def listRef : String := "list"

/-- The five (event type, listener) pairs `sortable` registers, in
registration order. -/
def listeners5 : List (String × Handler) :=
  [("dragstart", .dragstartH), ("dragend", .removeTargetClassH),
   ("dragenter", .dragenterH), ("dragover", .preventDefaultH),
   ("drop", .removeTargetClassH)]

/-- A fresh page before any decorator call: instance 0 holds `[a, b, c, d]`
at keypath `"list"`, node `i` resolves to member `i`, no listeners, no
module state. -/
def bareWorld4 {α : Type} (a b c d : α) : World α where
  nodes := fun _ => ⟨none, [], false, []⟩
  contexts := fun i => ⟨0, ⟨listRef, i⟩⟩
  store := fun r s => if r = 0 ∧ s = listRef then .arr [a, b, c, d] else .other
  query := fun _ _ => none
  module := ⟨none, none, none, none, []⟩

/-- Applies the decorator to the four rendered elements, as the template
would, with no handle selector, no explicit target class and no notify
event. -/
def attach4 {α : Type} (w : World α) : World α :=
  (sortable ((sortable ((sortable ((sortable w 0 none none none).world)
    1 none none none).world) 2 none none none).world) 3 none none none).world

/-- True of the collection-mutating effects (the two splices). -/
def Effect.isMutation {α : Type} : Effect α → Bool
  | .spliceRemove _ _ _ => true
  | .spliceInsert _ _ _ _ => true
  | _ => false

/-- True of the notification effects. -/
def Effect.isFire {α : Type} : Effect α → Bool
  | .fireEvent _ _ _ => true
  | _ => false

/-! ## Claims -/

/-- C1: on a page whose collection holds `[a, b, c, d]`, a native drag-start
dispatched on the element at index 0 followed by a drag-enter dispatched on
the element at index 2 leaves the collection equal to `[b, c, a, d]`, and a
drag-start on index 3 followed by a drag-enter on index 0 leaves it equal to
`[d, a, b, c]`, for any element values. -/
theorem claim1_order_preserving_move (α : Type) [Inhabited α] (a b c d : α) :
    ((dispatch (dispatch (attach4 (bareWorld4 a b c d)) 0 "dragstart").world
        2 "dragenter").world.store 0 listRef = .arr [b, c, a, d]) ∧
    ((dispatch (dispatch (attach4 (bareWorld4 a b c d)) 3 "dragstart").world
        0 "dragenter").world.store 0 listRef = .arr [d, a, b, c]) := by
  constructor <;>
    simp +decide [dispatch, runHandler, dragstartHandler, dragenterHandler, bareWorld4,
      attach4, sortable, addListener, getNodeToMove, ractiveGet, spliceRemoveStore,
      spliceInsertStore, jsSpliceRemove, jsSpliceInsert, Keypath.lastSegment,
      DataVal.isArray, listRef]

/-- C2: whenever a drag-enter reorders (registered handle, same owner, same
array, target keypath different from the current source keypath), the effect
trace contains exactly one removal, at the pre-update source keypath's final
segment, strictly before exactly one insertion; the insertion index comes
from the target's keypath, which is also the new source keypath recorded in
the session; and the inserted value is the one read at the source keypath
before the removal. -/
theorem claim2_remove_then_insert {α : Type} [Inhabited α] (w : World α)
    (t me : NodeId) (skp : Keypath)
    (h1 : getNodeToMove w.module.nodeMapping t = some me)
    (h2 : w.module.ractiveId = some (w.contexts me).ractiveId)
    (h3 : w.module.sourceArray = some (w.contexts me).keypath.parent)
    (h4 : w.module.sourceKeypath = some skp)
    (h5 : (w.contexts me).keypath ≠ skp) :
    (dragenterHandler w t).effects =
      [.prevDefault, .setDropEffectMove,
       .spliceRemove (w.contexts me).ractiveId (w.contexts me).keypath.parent
         skp.lastSegment,
       .spliceInsert (w.contexts me).ractiveId (w.contexts me).keypath.parent
         (w.contexts me).keypath.lastSegment
         (ractiveGet w.store (w.contexts me).ractiveId skp)] ++
      (match w.module.eventNameToFire with
       | some name => [.fireEvent name (w.contexts me) (w.contexts me).keypath]
       | none => []) ∧
    (dragenterHandler w t).world.store =
      spliceInsertStore
        (spliceRemoveStore w.store (w.contexts me).ractiveId
          (w.contexts me).keypath.parent skp.lastSegment)
        (w.contexts me).ractiveId (w.contexts me).keypath.parent
        (w.contexts me).keypath.lastSegment
        (ractiveGet w.store (w.contexts me).ractiveId skp) ∧
    (dragenterHandler w t).world.module =
      { w.module with sourceKeypath := some (w.contexts me).keypath } ∧
    (dragenterHandler w t).err = none := by
  unfold dragenterHandler
  rw [h1]
  simp [h2, h3, h4, h5]

/-- C2 witness: a concrete session (source index 0, owner 0, array `"list"`
holding `[10, 20, 30, 40]`, notify name `"reordered"`) entering index 2. -/
def wC2 : World Nat where
  nodes := fun _ => ⟨some "droptarget", [], true, listeners5⟩
  contexts := fun i => ⟨0, ⟨listRef, i⟩⟩
  store := fun r s => if r = 0 ∧ s = listRef then .arr [10, 20, 30, 40] else .other
  query := fun _ _ => none
  module := ⟨some 0, some ⟨listRef, 0⟩, some listRef, some "reordered",
    [⟨0, some 0⟩, ⟨1, some 1⟩, ⟨2, some 2⟩, ⟨3, some 3⟩]⟩

/-- C2 witness: the hypotheses hold at `wC2` with target node 2, and the
trace is the remove-at-0-then-insert-at-2 pair followed by the
notification. -/
theorem claim2_remove_then_insert_witness :
    wC2.module.sourceKeypath = some ⟨listRef, 0⟩ ∧
    (dragenterHandler wC2 2).effects =
      [Effect.prevDefault, Effect.setDropEffectMove,
       Effect.spliceRemove 0 listRef 0, Effect.spliceInsert 0 listRef 2 10,
       Effect.fireEvent "reordered" ⟨0, ⟨listRef, 2⟩⟩ ⟨listRef, 2⟩] :=
  ⟨by decide,
    (claim2_remove_then_insert wC2 2 2 ⟨listRef, 0⟩ (by decide) (by decide)
      (by decide) (by decide) (by decide)).1.trans (by decide)⟩

/-- C3: a drag-enter whose resolved keypath equals the session's current
source keypath mutates nothing: stores and module state are unchanged, no
error, and the trace holds no splice and no notification — only the
target-highlight class is added to the entered movable element's class
list. -/
theorem claim3_same_position_highlight_only {α : Type} [Inhabited α] (w : World α)
    (t me : NodeId)
    (h1 : getNodeToMove w.module.nodeMapping t = some me)
    (h2 : w.module.ractiveId = some (w.contexts me).ractiveId)
    (h3 : w.module.sourceArray = some (w.contexts me).keypath.parent)
    (h4 : w.module.sourceKeypath = some (w.contexts me).keypath) :
    (dragenterHandler w t).world.store = w.store ∧
    (dragenterHandler w t).world.module = w.module ∧
    (dragenterHandler w t).effects =
      [.prevDefault, .classAdd me ((w.nodes me).targetClass.getD "undefined")] ∧
    (dragenterHandler w t).world.nodes = (fun i =>
      if i = me then
        { w.nodes me with
          classes := jsClassAdd (w.nodes me).classes
            ((w.nodes me).targetClass.getD "undefined") }
      else w.nodes i) ∧
    (dragenterHandler w t).err = none := by
  unfold dragenterHandler
  rw [h1]
  simp [h2, h3, h4]

/-- C3 witness: same page as `wC2` but the session's source keypath is the
entered element's own keypath (index 2). -/
def wC3 : World Nat :=
  { wC2 with module := { wC2.module with sourceKeypath := some ⟨listRef, 2⟩ } }

/-- C3 witness: at `wC3`, entering node 2 leaves the store and module intact
and only adds the class. -/
theorem claim3_same_position_highlight_only_witness :
    wC3.module.sourceKeypath = some (wC3.contexts 2).keypath ∧
    (dragenterHandler wC3 2).world.module = wC3.module ∧
    (dragenterHandler wC3 2).effects =
      [Effect.prevDefault, Effect.classAdd 2 "droptarget"] :=
  ⟨by decide,
    (claim3_same_position_highlight_only wC3 2 2 (by decide) (by decide)
      (by decide) (by decide)).2.1,
    ((claim3_same_position_highlight_only wC3 2 2 (by decide) (by decide)
      (by decide) (by decide)).2.2.1).trans (by decide)⟩

/-- C4: a drag-enter whose element resolves to a different array than the
session's is ignored: the world (both collections included) is returned
unchanged, the only effect is the unconditional `preventDefault`, and no
error escapes. -/
theorem claim4_foreign_collection_ignored {α : Type} [Inhabited α] (w : World α)
    (t me : NodeId)
    (h1 : getNodeToMove w.module.nodeMapping t = some me)
    (h2 : some (w.contexts me).keypath.parent ≠ w.module.sourceArray) :
    dragenterHandler w t = ⟨w, [.prevDefault], none⟩ := by
  unfold dragenterHandler
  rw [h1]
  by_cases how : some (w.contexts me).ractiveId ≠ w.module.ractiveId
  · simp [how]
  · simp [how, h2]

/-- C4 witness: the session's source array is `"other"` while node 2 resolves
to `"list"`; the store of both arrays is untouched. -/
def wC4 : World Nat :=
  { wC2 with module := { wC2.module with sourceArray := some "other" } }

/-- C4 witness: at `wC4`, entering node 2 changes nothing. -/
theorem claim4_foreign_collection_ignored_witness :
    some (wC4.contexts 2).keypath.parent ≠ wC4.module.sourceArray ∧
    (dragenterHandler wC4 2).world.store 0 listRef = .arr [10, 20, 30, 40] ∧
    (dragenterHandler wC4 2).effects = [Effect.prevDefault] :=
  ⟨by decide,
    by rw [claim4_foreign_collection_ignored wC4 2 2 (by decide) (by decide)]; decide,
    by rw [claim4_foreign_collection_ignored wC4 2 2 (by decide) (by decide)]⟩

/-- C5: a drag-enter on an element owned by a different Ractive instance than
the session's is silently ignored: the world is returned unchanged, the only
effect is the unconditional `preventDefault`, and no error escapes. -/
theorem claim5_foreign_owner_ignored {α : Type} [Inhabited α] (w : World α)
    (t me : NodeId)
    (h1 : getNodeToMove w.module.nodeMapping t = some me)
    (h2 : some (w.contexts me).ractiveId ≠ w.module.ractiveId) :
    dragenterHandler w t = ⟨w, [.prevDefault], none⟩ := by
  unfold dragenterHandler
  rw [h1]
  simp [h2]

/-- C5 witness: the session belongs to instance 1 while node 2 is rendered by
instance 0. -/
def wC5 : World Nat :=
  { wC2 with module := { wC2.module with ractiveId := some 1 } }

/-- C5 witness: at `wC5`, entering node 2 changes nothing. -/
theorem claim5_foreign_owner_ignored_witness :
    some (wC5.contexts 2).ractiveId ≠ wC5.module.ractiveId ∧
    (dragenterHandler wC5 2).world.store 0 listRef = .arr [10, 20, 30, 40] ∧
    (dragenterHandler wC5 2).effects = [Effect.prevDefault] :=
  ⟨by decide,
    by rw [claim5_foreign_owner_ignored wC5 2 2 (by decide) (by decide)]; decide,
    by rw [claim5_foreign_owner_ignored wC5 2 2 (by decide) (by decide)]⟩

/-- C6: attaching the decorator to a fresh element whose resolved parent
value is not an array succeeds (no error, data untouched); the error with
the module's message then propagates out of the very first dispatched
drag-start on that element, which still leaves the data untouched. -/
theorem claim6_invalid_binding_lazy {α : Type} [Inhabited α] (w : World α)
    (node : NodeId) (tc ev : Option String)
    (hmap : w.module.nodeMapping = [])
    (hlis : (w.nodes node).listeners = [])
    (hna : (w.store (w.contexts node).ractiveId
        (w.contexts node).keypath.parent).isArray = false) :
    (sortable w node none tc ev).err = none ∧
    (sortable w node none tc ev).world.store = w.store ∧
    (dispatch (sortable w node none tc ev).world node "dragstart").err =
      some (.jsError errorMessage) ∧
    (dispatch (sortable w node none tc ev).world node "dragstart").world.store =
      w.store := by
  refine ⟨rfl, rfl, ?_, ?_⟩ <;>
    simp +decide [dispatch, sortable, addListener, runHandler, dragstartHandler,
      getNodeToMove, hmap, hlis, hna]

/-- C6 witness: a page whose data holds no array anywhere. -/
def wC6 : World Nat where
  nodes := fun _ => ⟨none, [], false, []⟩
  contexts := fun i => ⟨0, ⟨listRef, i⟩⟩
  store := fun _ _ => .other
  query := fun _ _ => none
  module := ⟨none, none, none, none, []⟩

/-- C6 witness: attaching node 0 over non-array data succeeds, and the first
drag-start dispatch reports the thrown error. -/
theorem claim6_invalid_binding_lazy_witness :
    (wC6.store (wC6.contexts 0).ractiveId
      (wC6.contexts 0).keypath.parent).isArray = false ∧
    (sortable wC6 0 none none none).err = none ∧
    (dispatch (sortable wC6 0 none none none).world 0 "dragstart").err =
      some (.jsError errorMessage) :=
  ⟨by decide,
    (claim6_invalid_binding_lazy wC6 0 none none (by decide) (by decide)
      (by decide)).1,
    (claim6_invalid_binding_lazy wC6 0 none none (by decide) (by decide)
      (by decide)).2.2.1⟩

/-- C7 counterexample world: node 0 is decorated with notify name `"evA"`,
then node 2 is decorated with no notify name (a later, independent binding).
The second attach overwrites the module-level `eventNameToFire`. -/
def wC7 : World Nat :=
  (sortable (sortable (bareWorld4 10 20 30 40) 0 none none (some "evA")).world
    2 none none none).world

/-- C7 counterexample: a successful reorder on the binding that configured
`"evA"` (drag-start node 0, drag-enter node 2 — the move does happen, the
store becomes `[20, 30, 10, 40]`) fires no notification at all: the name
configured at that binding's attach was overwritten by the later attach, so
the claim's one-notification-per-reorder with a per-binding name is false. -/
theorem claim7_per_binding_notify_counterexample :
    ((dispatch (dispatch wC7 0 "dragstart").world 2 "dragenter").world.store
        0 listRef = .arr [20, 30, 10, 40]) ∧
    ((dispatch (dispatch wC7 0 "dragstart").world 2 "dragenter").effects.filter
        Effect.isFire = []) := by decide

/-- C7 amended: the notify name is one module-level cell that every attach
call overwrites, whatever node it decorates; a successful reorder fires
exactly one notification when that cell is set — with the cell's name, the
entered element's context and the new position keypath — and a same-position
re-entry fires none. -/
theorem claim7_module_level_notify {α : Type} [Inhabited α] (w w2 : World α)
    (t me node2 : NodeId) (sel2 tc2 ev2 : Option String) (skp : Keypath) (n : String)
    (h1 : getNodeToMove w.module.nodeMapping t = some me)
    (h2 : w.module.ractiveId = some (w.contexts me).ractiveId)
    (h3 : w.module.sourceArray = some (w.contexts me).keypath.parent)
    (h4 : w.module.sourceKeypath = some skp)
    (h5 : w.module.eventNameToFire = some n) :
    (sortable w2 node2 sel2 tc2 ev2).world.module.eventNameToFire = ev2 ∧
    (dragenterHandler w t).effects.filter Effect.isFire =
      (if (w.contexts me).keypath = skp then []
       else [.fireEvent n (w.contexts me) (w.contexts me).keypath]) := by
  constructor
  · unfold sortable
    cases hsel : sel2 with
    | none => rfl
    | some s =>
      cases hq : w2.query node2 s with
      | none => simp only [hq]
      | some dn => simp only [hq]
  · unfold dragenterHandler
    rw [h1]
    by_cases hk : (w.contexts me).keypath = skp
    · simp [h2, h3, h4, h5, hk, Effect.isFire]
    · simp [h2, h3, h4, h5, hk, Effect.isFire]

/-- C7 amended witness: at the concrete session `wC2` (notify name
`"reordered"`), entering node 2 fires exactly the one notification, and an
attach overwrites the module-level cell. -/
theorem claim7_module_level_notify_witness :
    wC2.module.eventNameToFire = some "reordered" ∧
    (sortable wC6 3 none none (some "evB")).world.module.eventNameToFire =
      some "evB" ∧
    (dragenterHandler wC2 2).effects.filter Effect.isFire =
      [Effect.fireEvent "reordered" ⟨0, ⟨listRef, 2⟩⟩ ⟨listRef, 2⟩] :=
  ⟨by decide,
    (claim7_module_level_notify wC2 wC6 2 2 3 none none (some "evB") ⟨listRef, 0⟩
      "reordered" (by decide) (by decide) (by decide) (by decide) (by decide)).1,
    ((claim7_module_level_notify wC2 wC6 2 2 3 none none (some "evB") ⟨listRef, 0⟩
      "reordered" (by decide) (by decide) (by decide) (by decide) (by decide)).2).trans
      (by decide)⟩

/-- C8 counterexample: teardown deregisters the listeners but never removes
the `nodeMapping` entry, so after attaching node 0 on a fresh page and
calling the returned teardown, `getNodeToMove` still resolves the handle to
its movable element instead of failing. -/
theorem claim8_registry_counterexample :
    getNodeToMove
      (teardown (sortable wC6 0 none none none).world 0).module.nodeMapping 0 =
      some 0 := by decide

/-- C8 amended: after teardown of a freshly attached element, the registry
entry survives (the handle still resolves), but all five listeners are gone,
so dispatching any native event on the element runs no handler at all: the
world is unchanged, no effects, no lookups, no error. -/
theorem claim8_teardown_detaches_listeners {α : Type} [Inhabited α] (w : World α)
    (node : NodeId) (tc ev : Option String)
    (hmap : w.module.nodeMapping = [])
    (hlis : (w.nodes node).listeners = []) :
    ((teardown (sortable w node none tc ev).world node).nodes node).listeners = [] ∧
    getNodeToMove
      (teardown (sortable w node none tc ev).world node).module.nodeMapping node =
      some node ∧
    ∀ evType : String,
      dispatch (teardown (sortable w node none tc ev).world node) node evType =
        ⟨teardown (sortable w node none tc ev).world node, [], none⟩ := by
  have hL :
      ((teardown (sortable w node none tc ev).world node).nodes node).listeners = [] := by
    simp +decide [teardown, sortable, addListener, removeListener, hlis]
  refine ⟨hL, ?_, ?_⟩
  · simp +decide [teardown, sortable, getNodeToMove, hmap]
  · intro evType
    unfold dispatch
    rw [hL]
    rfl

/-- C8 witness: at the fresh page `wC6`, after attach and teardown of node 0,
a drag-start dispatch does nothing. -/
theorem claim8_teardown_detaches_listeners_witness :
    wC6.module.nodeMapping = [] ∧
    dispatch (teardown (sortable wC6 0 none none none).world 0) 0 "dragstart" =
      ⟨teardown (sortable wC6 0 none none none).world 0, [], none⟩ :=
  ⟨by decide,
    (claim8_teardown_detaches_listeners wC6 0 none none (by decide)
      (by decide)).2.2 "dragstart"⟩

/-- C9 counterexample world: a page mid-gesture — the session records owner
0, source keypath `list.0`, source array `"list"`, and node 0 carries the
highlight class and the five listeners. -/
def wC9 : World Nat where
  nodes := fun _ => ⟨some "droptarget", ["droptarget"], true, listeners5⟩
  contexts := fun i => ⟨0, ⟨listRef, i⟩⟩
  store := fun r s => if r = 0 ∧ s = listRef then .arr [10, 20, 30, 40] else .other
  query := fun _ _ => none
  module := ⟨some 0, some ⟨listRef, 0⟩, some listRef, none,
    [⟨0, some 0⟩, ⟨1, some 1⟩, ⟨2, some 2⟩, ⟨3, some 3⟩]⟩

/-- C9 counterexample: a dispatched drag-end removes the highlight class but
leaves every session field holding the gesture's values — `sourceKeypath`,
`sourceArray` and the owner are not cleared, so the claim's reset-to-Idle is
false. -/
theorem claim9_session_not_cleared_counterexample :
    ((dispatch wC9 0 "dragend").world.nodes 0).classes = [] ∧
    (dispatch wC9 0 "dragend").world.module.sourceKeypath = some ⟨listRef, 0⟩ ∧
    (dispatch wC9 0 "dragend").world.module.sourceArray = some listRef ∧
    (dispatch wC9 0 "dragend").world.module.ractiveId = some 0 := by decide

/-- C9 amended: `removeTargetClass` — the listener for both drag-end and
drop — removes the recorded target class from the movable element resolved
for the event's node and stops propagation, regardless of whether any
reorder occurred; it never touches the data stores, and the session fields
are left holding the previous gesture's values (only the next drag-start
overwrites them). -/
theorem claim9_dragend_highlight_only {α : Type} (w : World α) (t me : NodeId)
    (h1 : getNodeToMove w.module.nodeMapping t = some me) :
    (removeTargetClass w t).world.module = w.module ∧
    (removeTargetClass w t).world.store = w.store ∧
    (removeTargetClass w t).world.nodes = (fun i =>
      if i = me then
        { w.nodes me with
          classes := jsClassRemove (w.nodes me).classes
            ((w.nodes me).targetClass.getD "undefined") }
      else w.nodes i) ∧
    (removeTargetClass w t).effects =
      [.classRemove me ((w.nodes me).targetClass.getD "undefined"), .stopProp] ∧
    (removeTargetClass w t).err = none := by
  unfold removeTargetClass
  rw [h1]
  exact ⟨rfl, rfl, rfl, rfl, rfl⟩

/-- C9 amended witness: at the mid-gesture page `wC9`, the handler removes
the class from node 0 and the session fields survive. -/
theorem claim9_dragend_highlight_only_witness :
    getNodeToMove wC9.module.nodeMapping 0 = some 0 ∧
    (removeTargetClass wC9 0).world.module = wC9.module ∧
    (removeTargetClass wC9 0).effects =
      [Effect.classRemove 0 "droptarget", Effect.stopProp] :=
  ⟨by decide,
    (claim9_dragend_highlight_only wC9 0 0 (by decide)).1,
    ((claim9_dragend_highlight_only wC9 0 0 (by decide)).2.2.2.1).trans (by decide)⟩

/-- C10: an attach whose target-class argument is nullish (`none`, modelling
an omitted, null or undefined argument) or the empty string records the
default class `"droptarget"` on the movable element, for any handle
selector. -/
theorem claim10_default_target_class {α : Type} (w : World α) (node : NodeId)
    (sel ev : Option String) :
    ((sortable w node sel none ev).world.nodes node).targetClass =
      some "droptarget" ∧
    ((sortable w node sel (some "") ev).world.nodes node).targetClass =
      some "droptarget" := by
  constructor <;>
  · unfold sortable
    cases hsel : sel with
    | none => simp
    | some s =>
      cases hq : w.query node s with
      | none => simp [hq]
      | some dn =>
        simp only [hq]
        by_cases hdn : node = dn <;> simp [hdn]

end Sortable
